import Mathlib

/-!
Shallow embedding of the SplitPayment application (src/app.py).

The application keeps its state in an SQLite database with tables
`projects`, `worklog`, `users`, `scenarios`, `scenario_shares` and
`audit_log`.  We embed the database as an explicit `Store` record holding
one list per table (in row/rowid order, which is the order SQLite returns
rows in for the unordered queries the source issues), and each Python
function that touches the database as a Lean function taking and returning
a `Store`.

Modelling conventions:
* Python `float` values (money, percentages) are embedded as exact
  rationals `ℚ`.
* Timestamps (`datetime.now().isoformat()`) are environment inputs; every
  operation that reads the clock takes an abstract `now : Nat` argument.
  Date strings (project/worklog dates) stay `String`s.
* Python `dict`s keyed by strings are embedded as association lists
  `List (String × α)` with unique keys, with `dinsert` reproducing the
  insert-or-overwrite-in-place semantics of dict assignment and `dget`
  reproducing `dict.get(k, default)`.
* The JSON snapshots written to `audit_log` via `json.dumps` are embedded
  structurally by the `Snap` type (the claims never parse the snapshot
  strings, only inspect which snapshot was written).
* `sqlite3.IntegrityError` handlers that `conn.close()` without
  committing roll the open transaction back; those branches therefore
  return the store unchanged.
-/

/-- One row of the `projects` table. -/
structure Project where
  id : Nat
  name : String
  date : String
  scenario : String
  value : ℚ
  planned_days : Int
  created_at : Nat
deriving Repr, DecidableEq

/-- One row of the `worklog` table (the rowid column is not modelled:
no code path reads it). -/
structure Worklog where
  project_id : Nat
  date : String
  partner : String
  present : Nat
  logged_at : Nat
deriving Repr, DecidableEq

/-- One row of the `scenarios` table. -/
structure Scenario where
  id : Nat
  name : String
  description : String
  is_default : Nat
  created_at : Nat
  updated_at : Nat
deriving Repr, DecidableEq

/-- One row of the `scenario_shares` table. -/
structure ScenarioShare where
  scenario_id : Nat
  user_name : String
  share_percentage : ℚ
deriving Repr, DecidableEq

/-- Structural stand-in for the `json.dumps` snapshot strings stored in
`audit_log.old_value` and `audit_log.new_value`. -/
inductive Snap where
  | nameDesc (name description : String)
  | scen (name description : String) (is_default : Nat)
  | shareMap (m : List (String × ℚ))
deriving Repr, DecidableEq

/-- One row of the `audit_log` table. -/
structure AuditEntry where
  entity_type : String
  entity_id : Option Nat
  action : String
  old_value : Option Snap
  new_value : Option Snap
  created_at : Nat
deriving Repr, DecidableEq

/-- The whole database.  `next_scenario_id` / `next_project_id` model the
AUTOINCREMENT counters (every stored id is strictly below the counter).
The `users` table is omitted: none of the verified operations read it. -/
structure Store where
  projects : List Project
  worklog : List Worklog
  scenarios : List Scenario
  scenario_shares : List ScenarioShare
  audit_log : List AuditEntry
  next_scenario_id : Nat
  next_project_id : Nat
deriving Repr, DecidableEq

/-- A database with all tables empty. -/
def empty_store : Store := ⟨[], [], [], [], [], 1, 1⟩

/-- Python dict assignment `m[k] = v`: overwrite in place when the key is
present, append otherwise. -/
def dinsert {α : Type} (m : List (String × α)) (k : String) (v : α) :
    List (String × α) :=
  if m.any (fun p => p.1 == k) then
    m.map (fun p => if p.1 == k then (k, v) else p)
  else m ++ [(k, v)]

/-- Python `m.get(k, d)`. -/
def dget {α : Type} (m : List (String × α)) (k : String) (d : α) : α :=
  match m.find? (fun p => p.1 == k) with
  | some p => p.2
  | none => d

/-- Module constant `SCENARIOS`: the hardcoded fallback share tables. -/
def SCENARIOS : List (String × List (String × ℚ)) :=
  [("Scenariusz 1", [("W1", 40), ("W2", 30), ("W3", 30)]),
   ("Scenariusz 2", [("W1", 50), ("W2", 25), ("W3", 25)]),
   ("Scenariusz 3", [("W1", 33.33), ("W2", 33.33), ("W3", 33.34)])]

/-- Module constant `FIRM_PERCENTAGE`. -/
def FIRM_PERCENTAGE : ℚ := 3

/-- Two-digit zero padding used by `fmt2`. -/
def pad2 (n : Nat) : String :=
  if n < 10 then "0" ++ toString n else toString n

/-- Round `100 * q` to the nearest integer, ties to even: the rounding
mode of Python's `f"{q:.2f}"` format (idealised to exact rationals). -/
def rnd2 (q : ℚ) : Int :=
  let x := q * 100
  let f := ⌊x⌋
  let r := x - f
  if r < 1/2 then f else if 1/2 < r then f + 1
  else if f % 2 = 0 then f else f + 1

/-- Python's `f"{q:.2f}"` fixed-point rendering (on exact rationals). -/
def fmt2 (q : ℚ) : String :=
  let n := rnd2 q
  (if n < 0 then "-" else "") ++ toString (n.natAbs / 100) ++ "." ++
    pad2 (n.natAbs % 100)

/-- `validate_shares` (src/app.py:549): pure validation that a share
mapping sums to 100%, returning `(is_valid, message, total)`. -/
def validate_shares (shares : List (String × ℚ)) : Bool × String × ℚ :=
  let total := (shares.map (fun p => p.2)).sum
  if |total - 100| < 1/100 then
    (true, "Suma udziałów wynosi 100%", total)
  else if total < 100 then
    (false, "Suma udziałów jest za mała o " ++ fmt2 (100 - total) ++ "%", total)
  else
    (false, "Suma udziałów jest za duża o " ++ fmt2 (total - 100) ++ "%", total)

/-- `log_audit` (src/app.py:330): append one row to `audit_log`. -/
def log_audit (log : List AuditEntry) (entity_type : String)
    (entity_id : Option Nat) (action : String)
    (old_value new_value : Option Snap) (timestamp : Nat) :
    List AuditEntry :=
  log ++ [⟨entity_type, entity_id, action, old_value, new_value, timestamp⟩]

/-- Clear the `is_default` flag of one scenario row
(`UPDATE scenarios SET is_default = 0` applies this to every row). -/
def clearDefault (sc : Scenario) : Scenario := { sc with is_default := 0 }

/-- `create_scenario` (src/app.py:341).  Returns the new store and the new
row id, or `-1` after an `IntegrityError` (duplicate name), in which case
the implicit transaction — including the default-clearing `UPDATE` that
precedes the failing `INSERT` — is rolled back by `conn.close()`. -/
def create_scenario (s : Store) (name description : String)
    (is_default : Nat) (now : Nat) : Store × Int :=
  if s.scenarios.any (fun sc => sc.name == name) then
    (s, -1)
  else
    let scs := if is_default != 0 then s.scenarios.map clearDefault
               else s.scenarios
    let sid := s.next_scenario_id
    ({ s with
        scenarios := scs ++ [⟨sid, name, description, is_default, now, now⟩],
        next_scenario_id := sid + 1,
        audit_log := log_audit s.audit_log "scenario" (some sid) "created"
          none (some (Snap.nameDesc name description)) now },
     (sid : Int))

/-- `update_scenario` (src/app.py:371).  The `UPDATE ... WHERE id = ?`
raises `IntegrityError` exactly when the row exists and the new name
collides with a different row's name; that branch rolls everything back
and returns `false`.  Otherwise the default flags are cleared first (when
`is_default` is truthy), the row — if any — is rewritten, an audit entry
is appended when the row existed, and `true` is returned. -/
def update_scenario (s : Store) (scenario_id : Nat)
    (name description : String) (is_default : Nat) (now : Nat) :
    Store × Bool :=
  let old := s.scenarios.find? (fun sc => sc.id == scenario_id)
  if old.isSome &&
      s.scenarios.any (fun sc => sc.name == name && sc.id != scenario_id) then
    (s, false)
  else
    let scs := if is_default != 0 then s.scenarios.map clearDefault
               else s.scenarios
    let scs := scs.map (fun sc =>
      if sc.id == scenario_id then
        { sc with name := name, description := description,
                  is_default := is_default, updated_at := now }
      else sc)
    let audit :=
      match old with
      | some o =>
          log_audit s.audit_log "scenario" (some scenario_id) "updated"
            (some (Snap.scen o.name o.description o.is_default))
            (some (Snap.scen name description is_default)) now
      | none => s.audit_log
    ({ s with scenarios := scs, audit_log := audit }, true)

/-- `delete_scenario` (src/app.py:407).  Returns
`(store, success, message)`. -/
def delete_scenario (s : Store) (scenario_id : Nat) (now : Nat) :
    Store × Bool × String :=
  match s.scenarios.find? (fun sc => sc.id == scenario_id) with
  | none => (s, false, "Scenariusz nie istnieje")
  | some sc =>
    let count := (s.projects.filter (fun p => p.scenario == sc.name)).length
    if count > 0 then
      (s, false,
       "Nie można usunąć scenariusza używanego w " ++ toString count ++
         " projektach")
    else
      ({ s with
          scenario_shares :=
            s.scenario_shares.filter (fun r => !(r.scenario_id == scenario_id)),
          scenarios := s.scenarios.filter (fun x => !(x.id == scenario_id)),
          audit_log := log_audit s.audit_log "scenario" (some scenario_id)
            "deleted" (some (Snap.nameDesc sc.name sc.description)) none now },
       true, "Scenariusz usunięty pomyślnie")

/-- `get_all_scenarios` (src/app.py:451): all scenario rows,
`ORDER BY is_default DESC, name ASC`. -/
def get_all_scenarios (s : Store) : List Scenario :=
  s.scenarios.mergeSort (fun a b =>
    if a.is_default == b.is_default then decide (a.name ≤ b.name)
    else decide (b.is_default < a.is_default))

/-- `get_scenario_by_id` (src/app.py:468). -/
def get_scenario_by_id (s : Store) (scenario_id : Nat) : Option Scenario :=
  s.scenarios.find? (fun sc => sc.id == scenario_id)

/-- `get_scenario_by_name` (src/app.py:485). -/
def get_scenario_by_name (s : Store) (name : String) : Option Scenario :=
  s.scenarios.find? (fun sc => sc.name == name)

/-- `get_scenario_shares` (src/app.py:532): the share dict of one
scenario, in row order. -/
def get_scenario_shares (s : Store) (scenario_id : Nat) :
    List (String × ℚ) :=
  (s.scenario_shares.filter (fun r => r.scenario_id == scenario_id)).map
    (fun r => (r.user_name, r.share_percentage))

/-- `set_scenario_shares` (src/app.py:502): delete-all then insert-all of
one scenario's share rows, bump `updated_at`, append an audit entry with
the before/after maps.  The incoming `shares` come from a Python dict, so
their keys are unique and the UNIQUE(scenario_id, user_name) constraint
cannot fire. -/
def set_scenario_shares (s : Store) (scenario_id : Nat)
    (shares : List (String × ℚ)) (now : Nat) : Store :=
  let old := get_scenario_shares s scenario_id
  { s with
      scenario_shares :=
        s.scenario_shares.filter (fun r => !(r.scenario_id == scenario_id)) ++
          shares.map (fun p => ⟨scenario_id, p.1, p.2⟩),
      scenarios := s.scenarios.map (fun sc =>
        if sc.id == scenario_id then { sc with updated_at := now } else sc),
      audit_log := log_audit s.audit_log "scenario_shares" (some scenario_id)
        "updated" (some (Snap.shareMap old)) (some (Snap.shareMap shares)) now }

/-- `create_project` (src/app.py:122). -/
def create_project (s : Store) (name proj_date scenario : String)
    (value : ℚ) (planned_days : Int) (now : Nat) : Store × Nat :=
  let pid := s.next_project_id
  ({ s with
      projects := s.projects ++
        [⟨pid, name, proj_date, scenario, value, planned_days, now⟩],
      next_project_id := pid + 1 }, pid)

/-- `update_project` (src/app.py:155). -/
def update_project (s : Store) (project_id : Nat)
    (name proj_date scenario : String) (value : ℚ) (planned_days : Int) :
    Store :=
  { s with projects := s.projects.map (fun p =>
      if p.id == project_id then
        { p with name := name, date := proj_date, scenario := scenario,
                 value := value, planned_days := planned_days }
      else p) }

/-- `delete_project` (src/app.py:170): drops the worklog rows first, then
the project row. -/
def delete_project (s : Store) (project_id : Nat) : Store :=
  { s with
      worklog := s.worklog.filter (fun w => !(w.project_id == project_id)),
      projects := s.projects.filter (fun p => !(p.id == project_id)) }

/-- `get_project_by_id` (src/app.py:202). -/
def get_project_by_id (s : Store) (project_id : Nat) : Option Project :=
  s.projects.find? (fun p => p.id == project_id)

/-- `log_attendance` (src/app.py:646): `INSERT OR REPLACE` on the unique
key (project_id, date, partner) — the conflicting row is deleted and the
fresh row appended. -/
def log_attendance (s : Store) (project_id : Nat) (log_date partner : String)
    (present : Nat) (now : Nat) : Store :=
  { s with worklog :=
      s.worklog.filter (fun w =>
        !(w.project_id == project_id && w.date == log_date &&
          w.partner == partner)) ++
        [⟨project_id, log_date, partner, present, now⟩] }

/-- `get_worked_days_by_partner` (src/app.py:680): dict of
`COUNT(*) ... present = 1` per partner, built exactly as the source does
(zero-initialised comprehension, then one overwrite per partner). -/
def get_worked_days_by_partner (s : Store) (project_id : Nat)
    (partners : List String) : List (String × Nat) :=
  let init := partners.foldl (fun m p => dinsert m p 0) []
  partners.foldl (fun m p =>
    dinsert m p
      ((s.worklog.filter (fun w =>
          w.project_id == project_id && w.partner == p &&
            w.present == 1)).length)) init

/-- One per-partner entry of the `payouts` dict built by
`calculate_payouts`. -/
structure PayoutEntry where
  share_pct : ℚ
  worked_days : Nat
  payout : ℚ
deriving Repr, DecidableEq

/-- Result dictionary of `calculate_payouts`.  The Python function returns
a dict; `error` is `some msg` exactly when the dict carries the "error"
key (project not found). -/
structure PayoutReport where
  error : Option String
  project_name : String
  total_value : ℚ
  firm_cut : ℚ
  distributable : ℚ
  planned_days : Int
  total_worked_days : Nat
  payouts : List (String × PayoutEntry)
  total_paid : ℚ
  remaining : ℚ
  over_plan : Bool
deriving Repr, DecidableEq

/-- `calculate_payouts` (src/app.py:701). -/
def calculate_payouts (s : Store) (project_id : Nat)
    (partners : List String) : PayoutReport :=
  match get_project_by_id s project_id with
  | none =>
      ⟨some "Nie znaleziono projektu", "", 0, 0, 0, 0, 0, [], 0, 0, false⟩
  | some project =>
    let worked_days := get_worked_days_by_partner s project_id partners
    let partner_shares :=
      match get_scenario_by_name s project.scenario with
      | some scenario_data => get_scenario_shares s scenario_data.id
      | none => dget SCENARIOS project.scenario []
    let firm_cut := project.value * (FIRM_PERCENTAGE / 100)
    let distributable := project.value - firm_cut
    let payouts := partners.foldl (fun m partner =>
      let share_pct_value := dget partner_shares partner 0
      if share_pct_value > 0 then
        let share_pct := share_pct_value / 100
        let days_worked := dget worked_days partner 0
        let payout :=
          if project.planned_days > 0 then
            let per_day_value := distributable / (project.planned_days : ℚ)
            let partner_per_day := share_pct * per_day_value
            partner_per_day * (days_worked : ℚ)
          else 0
        dinsert m partner ⟨share_pct_value, days_worked, payout⟩
      else m) []
    let total_paid := (payouts.map (fun p => p.2.payout)).sum
    let remaining := distributable - total_paid
    let total_worked := (worked_days.map (fun p => p.2)).sum
    ⟨none, project.name, project.value, firm_cut, distributable,
     project.planned_days, total_worked, payouts, total_paid, remaining,
     decide ((total_worked : Int) > project.planned_days)⟩

/-- One record of the scenario export document (src/app.py:592 builds a
JSON array of exactly these fields; the `json.dumps`/`json.loads` text
layer is the identity on this structure and is not re-modelled). -/
structure ExportRec where
  name : String
  description : String
  is_default : Bool
  shares : List (String × ℚ)
deriving Repr, DecidableEq

/-- `export_scenarios_json` (src/app.py:592): one record per scenario, in
`get_all_scenarios` order. -/
def export_scenarios_json (s : Store) : List ExportRec :=
  (get_all_scenarios s).map (fun sc =>
    ⟨sc.name, sc.description, sc.is_default != 0, get_scenario_shares s sc.id⟩)

/-- One element of a parsed import document.  `record` is a JSON object
entry (`name = none` models a missing or null "name" key — processing it
makes `create_scenario` fail on the NOT NULL constraint and the loop
`continue`s); `malformed` models an array element that is not a JSON
object, whose `scenario_data.get(...)` raises and is caught only by the
batch-level handler at src/app.py:642. -/
inductive ImportEntry where
  | record (name : Option String) (description : String)
      (is_default : Bool) (shares : List (String × ℚ))
  | malformed
deriving Repr, DecidableEq

/-- Turn an exported record back into the entry its JSON parses to. -/
def toImportEntry (r : ExportRec) : ImportEntry :=
  ImportEntry.record (some r.name) r.description r.is_default r.shares

/-- An import entry that is a JSON object with a usable "name" key: the
kind of record the import loop counts on success. -/
def named_record : ImportEntry → Bool
  | ImportEntry.record (some _) _ _ _ => true
  | _ => false

/-- Loop body of `import_scenarios_json` (src/app.py:617-639), with the
running `imported_count`.  On a `malformed` entry the exception aborts
the loop: already-committed work stays, the batch returns failure (the
error message carries no count, rendered here as count 0). -/
def import_loop (s : Store) (cnt : Nat) (entries : List ImportEntry)
    (now : Nat) : Store × Bool × Nat :=
  match entries with
  | [] => (s, true, cnt)
  | ImportEntry.malformed :: _ => (s, false, 0)
  | ImportEntry.record none _ _ _ :: rest => import_loop s cnt rest now
  | ImportEntry.record (some name) description is_default shares :: rest =>
    match get_scenario_by_name s name with
    | some existing =>
        let s1 := (update_scenario s existing.id name description
          (if is_default then 1 else 0) now).1
        let s2 := set_scenario_shares s1 existing.id shares now
        import_loop s2 (cnt + 1) rest now
    | none =>
        let r := create_scenario s name description
          (if is_default then 1 else 0) now
        if r.2 == -1 then import_loop s cnt rest now
        else
          import_loop (set_scenario_shares r.1 r.2.toNat shares now)
            (cnt + 1) rest now

/-- `import_scenarios_json` (src/app.py:611): returns
`(store, success, reported success count)`. -/
def import_scenarios_json (s : Store) (entries : List ImportEntry)
    (now : Nat) : Store × Bool × Nat :=
  import_loop s 0 entries now

/-- `migrate_hardcoded_scenarios` (src/app.py:297): when the scenarios
table is empty, insert the hardcoded `SCENARIOS`, the first one as
default, with their share rows and a "migrated" audit entry each. -/
def migrate_hardcoded_scenarios (s : Store) (now : Nat) : Store :=
  if s.scenarios.length == 0 then
    (SCENARIOS.enum).foldl (fun acc entry =>
      let idx := entry.1
      let scenario_name := entry.2.1
      let shares := entry.2.2
      let sid := acc.next_scenario_id
      { acc with
          scenarios := acc.scenarios ++
            [⟨sid, scenario_name,
              "Zmigrowany scenariusz: " ++ scenario_name,
              if idx == 0 then 1 else 0, now, now⟩],
          scenario_shares := acc.scenario_shares ++
            shares.map (fun p => ⟨sid, p.1, p.2⟩),
          audit_log := log_audit acc.audit_log "scenario" (some sid)
            "migrated" none (some (Snap.shareMap shares)) now,
          next_scenario_id := sid + 1 }) s
  else s

/-- Number of scenario rows whose `is_default` flag is set. -/
def countDefaults (s : Store) : Nat :=
  s.scenarios.countP (fun sc => sc.is_default != 0)

/-- Name, description, default flag and share map of one scenario — the
data the export/import round trip is claimed to preserve. -/
def scenario_profile (s : Store) (sc : Scenario) :
    String × String × Bool × List (String × ℚ) :=
  (sc.name, sc.description, sc.is_default != 0, get_scenario_shares s sc.id)

/-- The data one export record carries, in profile shape. -/
def recProfile (r : ExportRec) : String × String × Bool × List (String × ℚ) :=
  (r.name, r.description, r.is_default, r.shares)

/-- Profiles of all scenarios of a store, in table order. -/
def store_profiles (s : Store) :
    List (String × String × Bool × List (String × ℚ)) :=
  s.scenarios.map (scenario_profile s)

/-- Sum of a share mapping's values, as `validate_shares` computes it. -/
def shares_total (m : List (String × ℚ)) : ℚ :=
  (m.map (fun p => p.2)).sum

/-- Store for the worked payout example: one project worth 1000 with 10
planned days, scenario shares W1 40 / W2 30 / W3 30, attendance of
5 / 3 / 2 present days. -/
def c1_store : Store :=
  { projects := [⟨1, "Projekt", "2024-01-01", "S1", 1000, 10, 0⟩],
    worklog :=
      [⟨1, "d1", "W1", 1, 0⟩, ⟨1, "d2", "W1", 1, 0⟩, ⟨1, "d3", "W1", 1, 0⟩,
       ⟨1, "d4", "W1", 1, 0⟩, ⟨1, "d5", "W1", 1, 0⟩,
       ⟨1, "d1", "W2", 1, 0⟩, ⟨1, "d2", "W2", 1, 0⟩, ⟨1, "d3", "W2", 1, 0⟩,
       ⟨1, "d1", "W3", 1, 0⟩, ⟨1, "d2", "W3", 1, 0⟩],
    scenarios := [⟨1, "S1", "", 1, 0, 0⟩],
    scenario_shares := [⟨1, "W1", 40⟩, ⟨1, "W2", 30⟩, ⟨1, "W3", 30⟩],
    audit_log := [], next_scenario_id := 2, next_project_id := 2 }

/-- Store with attendance past the plan: 1 planned day, W1 holds 100% and
was present twice. -/
def c5_store : Store :=
  { projects := [⟨1, "P", "2024-01-01", "S1", 1000, 1, 0⟩],
    worklog := [⟨1, "d1", "W1", 1, 0⟩, ⟨1, "d2", "W1", 1, 0⟩],
    scenarios := [⟨1, "S1", "", 1, 0, 0⟩],
    scenario_shares := [⟨1, "W1", 100⟩],
    audit_log := [], next_scenario_id := 2, next_project_id := 2 }

/-- Store whose only project has zero planned days while W1 has a
positive share and one present day. -/
def c6_store : Store :=
  { projects := [⟨1, "P", "2024-01-01", "S1", 1000, 0, 0⟩],
    worklog := [⟨1, "d1", "W1", 1, 0⟩],
    scenarios := [⟨1, "S1", "", 1, 0, 0⟩],
    scenario_shares := [⟨1, "W1", 50⟩],
    audit_log := [], next_scenario_id := 2, next_project_id := 2 }

/-- Structural well-formedness of the scenarios table that SQLite's
AUTOINCREMENT primary key guarantees: every stored id is below the
counter, and ids are pairwise distinct. -/
def ScenarioIdsOk (s : Store) : Prop :=
  (∀ sc ∈ s.scenarios, sc.id < s.next_scenario_id) ∧
  (s.scenarios.map Scenario.id).Nodup

/-- Store with a single default scenario (id 1). -/
def c3_store : Store :=
  { projects := [], worklog := [],
    scenarios := [⟨1, "A", "", 1, 0, 0⟩],
    scenario_shares := [], audit_log := [],
    next_scenario_id := 2, next_project_id := 1 }

/-- Store with a default scenario (id 1) and a non-default one (id 2). -/
def c3_two_store : Store :=
  { projects := [], worklog := [],
    scenarios := [⟨1, "A", "", 1, 0, 0⟩, ⟨2, "B", "", 0, 0, 0⟩],
    scenario_shares := [], audit_log := [],
    next_scenario_id := 3, next_project_id := 1 }

/-- Store holding one scenario (id 1, name "A") with one share row and no
projects. -/
def c4_store : Store :=
  { projects := [], worklog := [],
    scenarios := [⟨1, "A", "opis", 0, 0, 0⟩],
    scenario_shares := [⟨1, "W1", 100⟩], audit_log := [],
    next_scenario_id := 2, next_project_id := 1 }

/-- Same scenario as `c4_store`, but referenced by one project. -/
def c4_used_store : Store :=
  { projects := [⟨1, "P", "2024-01-01", "A", 1000, 10, 0⟩], worklog := [],
    scenarios := [⟨1, "A", "opis", 0, 0, 0⟩],
    scenario_shares := [⟨1, "W1", 100⟩], audit_log := [],
    next_scenario_id := 2, next_project_id := 2 }

/-- Import document with one well-formed record, one non-object entry and
another well-formed record. -/
def c8_doc : List ImportEntry :=
  [ImportEntry.record (some "A") "" false [("W1", 100)],
   ImportEntry.malformed,
   ImportEntry.record (some "B") "" false [("W1", 100)]]

/-- Store with two scenarios (one default) and their share rows. -/
def c7_store : Store :=
  { projects := [], worklog := [],
    scenarios := [⟨1, "S1", "d1", 1, 0, 0⟩, ⟨2, "S2", "d2", 0, 0, 0⟩],
    scenario_shares := [⟨1, "W1", 60⟩, ⟨1, "W2", 40⟩, ⟨2, "W1", 100⟩],
    audit_log := [], next_scenario_id := 3, next_project_id := 1 }

/-- C1: `calculate_payouts` on `c1_store` (value 1000, firm percentage 3,
planned days 10, shares W1 40 / W2 30 / W3 30, worked days 5 / 3 / 2)
returns firm_cut 30, distributable 970, per-day value 97, payouts
W1 194.00 / W2 87.30 / W3 58.20, total_paid 339.50, remaining 630.50 and
over_plan false. -/
theorem payouts_example_c1 :
    (calculate_payouts c1_store 1 ["W1", "W2", "W3"]).firm_cut = 30 ∧
    (calculate_payouts c1_store 1 ["W1", "W2", "W3"]).distributable = 970 ∧
    (calculate_payouts c1_store 1 ["W1", "W2", "W3"]).distributable /
      (((calculate_payouts c1_store 1 ["W1", "W2", "W3"]).planned_days : ℚ)) = 97 ∧
    (calculate_payouts c1_store 1 ["W1", "W2", "W3"]).payouts =
      [("W1", ⟨40, 5, 194⟩), ("W2", ⟨30, 3, 873/10⟩),
       ("W3", ⟨30, 2, 291/5⟩)] ∧
    (calculate_payouts c1_store 1 ["W1", "W2", "W3"]).total_paid = 679/2 ∧
    (calculate_payouts c1_store 1 ["W1", "W2", "W3"]).remaining = 1261/2 ∧
    (calculate_payouts c1_store 1 ["W1", "W2", "W3"]).over_plan = false := by
  simp [calculate_payouts, get_project_by_id, get_worked_days_by_partner,
    get_scenario_by_name, get_scenario_shares, dget, dinsert, c1_store,
    FIRM_PERCENTAGE]
  norm_num

/-- C2: `validate_shares` is valid exactly when the values sum to within
0.01 of 100; the returned total is that sum; an invalid result's message
reports the exact shortfall (sum below 100) or excess (otherwise),
formatted to two decimal places.  The function is pure by construction. -/
theorem validate_shares_c2 (m : List (String × ℚ)) :
    ((validate_shares m).1 = true ↔ |shares_total m - 100| < 1/100) ∧
    (validate_shares m).2.2 = shares_total m ∧
    (¬ |shares_total m - 100| < 1/100 → shares_total m < 100 →
      (validate_shares m).2.1 =
        "Suma udziałów jest za mała o " ++ fmt2 (100 - shares_total m) ++ "%") ∧
    (¬ |shares_total m - 100| < 1/100 → ¬ shares_total m < 100 →
      (validate_shares m).2.1 =
        "Suma udziałów jest za duża o " ++ fmt2 (shares_total m - 100) ++ "%") := by
  simp only [validate_shares, shares_total]
  split_ifs with h1 h2 <;> refine ⟨?_, rfl, ?_, ?_⟩ <;> simp_all

/-- Witness for C2 at the spec's own example `{A:40, B:30, C:29}`:
invalid, reported too small by exactly "1.00" percent, total 99. -/
theorem validate_shares_c2_witness :
    (validate_shares [("A", 40), ("B", 30), ("C", 29)]).1 = false ∧
    (validate_shares [("A", 40), ("B", 30), ("C", 29)]).2.1 =
      "Suma udziałów jest za mała o 1.00%" ∧
    (validate_shares [("A", 40), ("B", 30), ("C", 29)]).2.2 = 99 := by
  have h := validate_shares_c2 [("A", 40), ("B", 30), ("C", 29)]
  have htot : shares_total [("A", 40), ("B", 30), ("C", 29)] = 99 := by
    unfold shares_total; norm_num
  have hna : ¬ |shares_total [("A", 40), ("B", 30), ("C", 29)] - 100| <
      (1:ℚ)/100 := by rw [htot]; norm_num
  have hlt : shares_total [("A", 40), ("B", 30), ("C", 29)] < 100 := by
    rw [htot]; norm_num
  refine ⟨?_, ?_, ?_⟩
  · have := h.1
    rw [htot] at this
    simp only [show ¬ |(99:ℚ) - 100| < 1/100 by norm_num, iff_false] at this
    exact Bool.not_eq_true _ |>.mp this
  · have hm := h.2.2.1 hna hlt
    rw [htot] at hm
    rw [hm]
    have hf : fmt2 ((100:ℚ) - 99) = "1.00" := by
      have h1 : rnd2 ((100:ℚ) - 99) = 100 := by
        simp only [rnd2]
        norm_num
      simp only [fmt2, h1, pad2]
      rfl
    rw [hf]
    rfl
  · exact h.2.1.trans htot

theorem clearDefault_flag (sc : Scenario) : (clearDefault sc).is_default = 0 := rfl

theorem clearDefault_id (sc : Scenario) : (clearDefault sc).id = sc.id := rfl

theorem clearDefault_eq_self (sc : Scenario) (h : sc.is_default = 0) :
    clearDefault sc = sc := by
  cases sc
  simp_all [clearDefault]

theorem map_clear_countP (l : List Scenario) :
    (l.map clearDefault).countP (fun sc => sc.is_default != 0) = 0 := by
  simp [List.countP_map, Function.comp, clearDefault]

theorem map_clear_eq_self (l : List Scenario)
    (h : ∀ sc ∈ l, sc.is_default = 0) : l.map clearDefault = l := by
  rw [List.map_congr_left (fun sc hsc => clearDefault_eq_self sc (h sc hsc))]
  exact List.map_id l

theorem find?_id_eq_none (l : List Scenario) (sid : Nat)
    (h : ∀ sc ∈ l, sc.id ≠ sid) :
    l.find? (fun sc => sc.id == sid) = none := by
  rw [List.find?_eq_none]
  intro sc hsc
  simpa using h sc hsc

/-- C9: logging attendance twice for the same (project, date, partner) key
with different present values leaves exactly one worklog row for that key,
carrying the second call's value and timestamp (last-write-wins upsert). -/
theorem log_attendance_c9 (s : Store) (pid : Nat) (d partner : String)
    (v1 t1 v2 t2 : Nat) (h : v1 ≠ v2) :
    ((log_attendance (log_attendance s pid d partner v1 t1) pid d partner
        v2 t2).worklog.filter
      (fun w => w.project_id == pid && w.date == d && w.partner == partner)) =
    [⟨pid, d, partner, v2, t2⟩] := by
  simp [log_attendance, List.filter_append, List.filter_filter]

/-- Witness for C9: on the empty store, presence 1 then presence 0 for the
same key leaves only the second row. -/
theorem log_attendance_c9_witness :
    ((log_attendance (log_attendance empty_store 7 "2024-01-01" "W1" 1 3) 7
        "2024-01-01" "W1" 0 4).worklog.filter
      (fun w => w.project_id == 7 && w.date == "2024-01-01" &&
        w.partner == "W1")) =
    [⟨7, "2024-01-01", "W1", 0, 4⟩] :=
  log_attendance_c9 empty_store 7 "2024-01-01" "W1" 1 3 0 4 (by decide)

/-- C10: `update_scenario` on an id absent from the store returns success,
appends no audit entry and rewrites no scenario row — except that with the
default flag set it still clears `is_default` everywhere, leaving zero
default scenarios. -/
theorem update_missing_c10 (s : Store) (sid : Nat) (nm ds : String)
    (dflt t : Nat) (h : ∀ sc ∈ s.scenarios, sc.id ≠ sid) :
    (update_scenario s sid nm ds dflt t).2 = true ∧
    (update_scenario s sid nm ds dflt t).1.audit_log = s.audit_log ∧
    (update_scenario s sid nm ds dflt t).1.projects = s.projects ∧
    (update_scenario s sid nm ds dflt t).1.worklog = s.worklog ∧
    (update_scenario s sid nm ds dflt t).1.scenario_shares =
      s.scenario_shares ∧
    (dflt = 0 → (update_scenario s sid nm ds dflt t).1 = s) ∧
    (dflt ≠ 0 →
      (update_scenario s sid nm ds dflt t).1.scenarios =
        s.scenarios.map clearDefault ∧
      countDefaults (update_scenario s sid nm ds dflt t).1 = 0) := by
  have hfind := find?_id_eq_none s.scenarios sid h
  have hsetter : ∀ (l : List Scenario), (∀ sc ∈ l, sc.id ≠ sid) →
      l.map (fun sc =>
        if sc.id == sid then
          { sc with name := nm, description := ds, is_default := dflt,
                    updated_at := t }
        else sc) = l := by
    intro l hl
    rw [List.map_congr_left (fun sc hsc => ?_)]
    · exact List.map_id l
    · simp [hl sc hsc]
  unfold update_scenario
  rw [hfind]
  by_cases hd : dflt = 0
  · subst hd
    simp only [Option.isSome_none, Bool.false_and, Bool.false_eq_true,
      if_false, bne_self_eq_false, hsetter s.scenarios h]
    simp
  · have hb : (dflt != 0) = true := by simpa using hd
    simp only [Option.isSome_none, Bool.false_and, Bool.false_eq_true,
      if_false, hb, if_true]
    have hids : ∀ sc ∈ s.scenarios.map clearDefault, sc.id ≠ sid := by
      intro sc hsc
      rcases List.mem_map.mp hsc with ⟨sc0, hsc0, rfl⟩
      exact h sc0 hsc0
    rw [hsetter (s.scenarios.map clearDefault) hids]
    refine ⟨trivial, trivial, trivial, trivial, trivial,
      fun hc => absurd hc hd, fun hc => ⟨rfl, ?_⟩⟩
    simp only [countDefaults]
    exact map_clear_countP s.scenarios

/-- Witness for C10: updating missing id 2 with the default flag in a
store whose only scenario (id 1) is default returns success, logs nothing
and ends with zero defaults. -/
theorem update_missing_c10_witness :
    (update_scenario c3_store 2 "B" "" 1 5).2 = true ∧
    (update_scenario c3_store 2 "B" "" 1 5).1.audit_log = [] ∧
    countDefaults (update_scenario c3_store 2 "B" "" 1 5).1 = 0 := by
  have h := update_missing_c10 c3_store 2 "B" "" 1 5 (by decide)
  exact ⟨h.1, h.2.1, (h.2.2.2.2.2.2 (by decide)).2⟩

theorem mem_dinsert {α : Type} (m : List (String × α)) (k : String) (v : α)
    (q : String × α) (hq : q ∈ dinsert m k v) : q ∈ m ∨ q.2 = v := by
  unfold dinsert at hq
  split at hq
  · rcases List.mem_map.mp hq with ⟨p, hp, he⟩
    by_cases hk : p.1 == k
    · right
      rw [if_pos hk] at he
      rw [← he]
    · left
      rw [if_neg hk] at he
      rwa [he] at hp
  · rcases List.mem_append.mp hq with h1 | h1
    · left; exact h1
    · right
      simp at h1
      rw [h1]

/-- C6: when the project's planned_days is 0, every partner entry of the
payouts dict (each of which has a positive share) carries payout 0 — the
division by planned_days is guarded by the `planned_days > 0` check, so no
division fault arises (the embedding is total on this path). -/
theorem planned_zero_c6 (s : Store) (pid : Nat) (partners : List String)
    (p : Project) (hp : get_project_by_id s pid = some p)
    (h0 : p.planned_days = 0) :
    ((calculate_payouts s pid partners).payouts.all
      (fun e => e.2.payout == 0)) = true := by
  simp only [calculate_payouts, hp, h0]
  rw [List.all_eq_true]
  have step : ∀ (l : List String) (m : List (String × PayoutEntry)),
      (∀ q ∈ m, q.2.payout = 0) →
      ∀ q ∈ l.foldl (fun m partner =>
        let share_pct_value := dget (match get_scenario_by_name s p.scenario with
          | some scenario_data => get_scenario_shares s scenario_data.id
          | none => dget SCENARIOS p.scenario []) partner 0
        if share_pct_value > 0 then
          dinsert m partner ⟨share_pct_value,
            dget (get_worked_days_by_partner s pid partners) partner 0,
            if (0:Int) > 0 then
              share_pct_value / 100 *
                ((p.value - p.value * (FIRM_PERCENTAGE / 100)) / ((0:Int) : ℚ)) *
                ((dget (get_worked_days_by_partner s pid partners) partner 0 : Nat) : ℚ)
            else 0⟩
        else m) m, q.2.payout = 0 := by
    intro l
    induction l with
    | nil => intro m hm; exact hm
    | cons a l ih =>
      intro m hm
      simp only [List.foldl_cons]
      apply ih
      intro q hq
      split at hq
      · rcases mem_dinsert _ _ _ q hq with h1 | h1
        · exact hm q h1
        · rw [h1]; simp
      · exact hm q hq
  intro q hq
  have := step partners [] (by intro q hq; cases hq) q hq
  simpa using this

/-- Witness for C6 on `c6_store`: planned_days 0, W1 with positive share
50 and one present day, and every payout entry is 0. -/
theorem planned_zero_c6_witness :
    ((calculate_payouts c6_store 1 ["W1"]).payouts.all
      (fun e => e.2.payout == 0)) = true :=
  planned_zero_c6 c6_store 1 ["W1"] ⟨1, "P", "2024-01-01", "S1", 1000, 0, 0⟩
    rfl rfl

/-- C5: for any found project, `calculate_payouts` reports total_paid as
the sum of the individual payouts, remaining as distributable minus
total_paid, total_worked_days as the sum of all partners' worked days and
over_plan as total_worked_days > planned_days; and worked days are not
capped: on `c5_store` (attendance past the plan) total_paid exceeds
distributable, remaining is negative and over_plan is true. -/
theorem payout_totals_c5 :
    (∀ (s : Store) (pid : Nat) (partners : List String) (p : Project),
      get_project_by_id s pid = some p →
        (calculate_payouts s pid partners).total_paid =
          ((calculate_payouts s pid partners).payouts.map
            (fun e => e.2.payout)).sum ∧
        (calculate_payouts s pid partners).remaining =
          (calculate_payouts s pid partners).distributable -
            (calculate_payouts s pid partners).total_paid ∧
        (calculate_payouts s pid partners).total_worked_days =
          ((get_worked_days_by_partner s pid partners).map
            (fun e => e.2)).sum ∧
        (calculate_payouts s pid partners).over_plan =
          decide (((calculate_payouts s pid partners).total_worked_days : Int) >
            (calculate_payouts s pid partners).planned_days)) ∧
    ((calculate_payouts c5_store 1 ["W1"]).total_paid >
      (calculate_payouts c5_store 1 ["W1"]).distributable ∧
     (calculate_payouts c5_store 1 ["W1"]).remaining < 0 ∧
     (calculate_payouts c5_store 1 ["W1"]).over_plan = true) := by
  constructor
  · intro s pid partners p hp
    simp only [calculate_payouts, hp]
    simp
  · have h : (calculate_payouts c5_store 1 ["W1"]).total_paid = 1940 ∧
        (calculate_payouts c5_store 1 ["W1"]).distributable = 970 ∧
        (calculate_payouts c5_store 1 ["W1"]).remaining = -970 ∧
        (calculate_payouts c5_store 1 ["W1"]).over_plan = true := by
      simp [calculate_payouts, get_project_by_id, get_worked_days_by_partner,
        get_scenario_by_name, get_scenario_shares, dget, dinsert, c5_store,
        FIRM_PERCENTAGE]
      norm_num
    rw [h.1, h.2.1, h.2.2.1, h.2.2.2]
    norm_num

/-- Witness for C5's universally quantified part at `c1_store`. -/
theorem payout_totals_c5_witness :
    (calculate_payouts c1_store 1 ["W1", "W2", "W3"]).total_paid =
      ((calculate_payouts c1_store 1 ["W1", "W2", "W3"]).payouts.map
        (fun e => e.2.payout)).sum ∧
    (calculate_payouts c1_store 1 ["W1", "W2", "W3"]).remaining =
      (calculate_payouts c1_store 1 ["W1", "W2", "W3"]).distributable -
        (calculate_payouts c1_store 1 ["W1", "W2", "W3"]).total_paid :=
  have h := payout_totals_c5.1 c1_store 1 ["W1", "W2", "W3"]
    ⟨1, "Projekt", "2024-01-01", "S1", 1000, 10, 0⟩ rfl
  ⟨h.1, h.2.1⟩

/-- C4: `delete_scenario` returns a not-found failure when no scenario has
the id; a blocked failure naming the referencing-project count — with the
store untouched — when the scenario's name is referenced by at least one
project; and on success removes the scenario's share rows and its row and
appends an audit entry with action "deleted". -/
theorem delete_scenario_c4 (s : Store) (sid t : Nat) :
    ((∀ sc ∈ s.scenarios, sc.id ≠ sid) →
      delete_scenario s sid t = (s, false, "Scenariusz nie istnieje")) ∧
    (∀ sc, s.scenarios.find? (fun x => x.id == sid) = some sc →
      (0 < (s.projects.filter (fun p => p.scenario == sc.name)).length →
        delete_scenario s sid t = (s, false,
          "Nie można usunąć scenariusza używanego w " ++
            toString
              (s.projects.filter (fun p => p.scenario == sc.name)).length ++
            " projektach")) ∧
      ((s.projects.filter (fun p => p.scenario == sc.name)).length = 0 →
        (delete_scenario s sid t).2.1 = true ∧
        (delete_scenario s sid t).1.scenario_shares =
          s.scenario_shares.filter (fun r => !(r.scenario_id == sid)) ∧
        (delete_scenario s sid t).1.scenarios =
          s.scenarios.filter (fun x => !(x.id == sid)) ∧
        (delete_scenario s sid t).1.audit_log =
          s.audit_log ++ [⟨"scenario", some sid, "deleted",
            some (Snap.nameDesc sc.name sc.description), none, t⟩])) := by
  constructor
  · intro h
    have hfind := find?_id_eq_none s.scenarios sid h
    simp only [delete_scenario, hfind]
  · intro sc hsc
    constructor
    · intro hpos
      simp only [delete_scenario, hsc]
      rw [if_pos hpos]
    · intro hzero
      simp only [delete_scenario, hsc]
      rw [if_neg (by omega)]
      exact ⟨rfl, rfl, rfl, rfl⟩

/-- Witness for C4: all three branches on concrete stores — missing id 99;
id 1 in use by one project; id 1 deleted cleanly with its share row and a
"deleted" audit entry. -/
theorem delete_scenario_c4_witness :
    delete_scenario c4_store 99 3 =
      (c4_store, false, "Scenariusz nie istnieje") ∧
    delete_scenario c4_used_store 1 3 = (c4_used_store, false,
      "Nie można usunąć scenariusza używanego w 1 projektach") ∧
    (delete_scenario c4_store 1 3).2.1 = true ∧
    (delete_scenario c4_store 1 3).1.scenarios = [] ∧
    (delete_scenario c4_store 1 3).1.scenario_shares = [] ∧
    (delete_scenario c4_store 1 3).1.audit_log =
      [⟨"scenario", some 1, "deleted", some (Snap.nameDesc "A" "opis"),
        none, 3⟩] := by
  have h1 := (delete_scenario_c4 c4_store 99 3).1 (by decide)
  have h2 := ((delete_scenario_c4 c4_used_store 1 3).2 ⟨1, "A", "opis", 0, 0, 0⟩
    rfl).1 (by decide)
  have h3 := ((delete_scenario_c4 c4_store 1 3).2 ⟨1, "A", "opis", 0, 0, 0⟩
    rfl).2 (by decide)
  refine ⟨h1, h2.trans (by rfl), h3.1, ?_, ?_, ?_⟩
  · rw [h3.2.2.1]; rfl
  · rw [h3.2.1]; rfl
  · rw [h3.2.2.2]; rfl

theorem filter_map_clear_nil (l : List Scenario) :
    (l.map clearDefault).filter (fun sc => sc.is_default != 0) = [] := by
  rw [List.filter_eq_nil_iff]
  intro a ha
  rcases List.mem_map.mp ha with ⟨b, _, rfl⟩
  simp [clearDefault]

theorem create_defaults (s : Store) (nm ds : String) (dflt t : Nat)
    (hd : dflt ≠ 0) (hsucc : (create_scenario s nm ds dflt t).2 ≠ -1) :
    ((create_scenario s nm ds dflt t).1.scenarios.filter
      (fun sc => sc.is_default != 0)).map Scenario.id =
    [s.next_scenario_id] := by
  by_cases hdup : s.scenarios.any (fun sc => sc.name == nm)
  · exfalso
    apply hsucc
    simp [create_scenario, hdup]
  · have hb : (dflt != 0) = true := by simpa using hd
    simp only [create_scenario, hdup, if_false, hb, if_true, Bool.false_eq_true]
    rw [List.filter_append, filter_map_clear_nil]
    simp [hb]

theorem update_defaults (s : Store) (sid : Nat) (nm ds : String)
    (dflt t : Nat) (hn : (s.scenarios.map Scenario.id).Nodup)
    (hmem : ∃ sc ∈ s.scenarios, sc.id = sid) (hd : dflt ≠ 0)
    (hsucc : (update_scenario s sid nm ds dflt t).2 = true) :
    ((update_scenario s sid nm ds dflt t).1.scenarios.filter
      (fun sc => sc.is_default != 0)).map Scenario.id = [sid] := by
  by_cases herr : (s.scenarios.find? (fun sc => sc.id == sid)).isSome &&
      s.scenarios.any (fun sc => sc.name == nm && sc.id != sid)
  · exfalso
    have : (update_scenario s sid nm ds dflt t).2 = false := by
      simp [update_scenario, herr]
    rw [hsucc] at this
    cases this
  · have hb : (dflt != 0) = true := by simpa using hd
    have hscen : (update_scenario s sid nm ds dflt t).1.scenarios =
        s.scenarios.map (fun sc =>
          if sc.id == sid then
            { sc with name := nm, description := ds, is_default := dflt,
                      updated_at := t }
          else clearDefault sc) := by
      simp only [update_scenario, herr, if_false, hb, if_true,
        Bool.false_eq_true, List.map_map]
      rfl
    rw [hscen]
    rw [List.filter_map]
    have hpt : s.scenarios.filter ((fun sc => sc.is_default != 0) ∘ (fun sc =>
        if sc.id == sid then
          { sc with name := nm, description := ds, is_default := dflt,
                    updated_at := t }
        else clearDefault sc)) =
        s.scenarios.filter (fun sc => sc.id == sid) := by
      apply List.filter_congr
      intro sc _
      by_cases hid : sc.id == sid <;> simp [Function.comp, clearDefault, hid, hb]
    rw [hpt]
    have hcount : (s.scenarios.filter (fun sc => sc.id == sid)).length = 1 := by
      rw [← List.countP_eq_length_filter]
      have h1 : List.countP (fun sc => sc.id == sid) s.scenarios =
          List.count sid (s.scenarios.map Scenario.id) := by
        rw [List.count_eq_countP, List.countP_map]
        rfl
      rw [h1]
      apply List.count_eq_one_of_mem hn
      rcases hmem with ⟨sc, hsc, rfl⟩
      exact List.mem_map_of_mem Scenario.id hsc
    rcases List.length_eq_one.mp hcount with ⟨a, ha⟩
    rw [ha]
    have hamem : a ∈ s.scenarios.filter (fun sc => sc.id == sid) := by
      rw [ha]; exact List.mem_singleton_self a
    have haid : a.id = sid := by
      have := (List.mem_filter.mp hamem).2
      simpa using this
    simp [haid]

theorem countDefaults_create_le (s : Store) (nm ds : String) (dflt t : Nat)
    (h : countDefaults s ≤ 1) :
    countDefaults (create_scenario s nm ds dflt t).1 ≤ 1 := by
  by_cases hdup : s.scenarios.any (fun sc => sc.name == nm)
  · simpa [create_scenario, hdup] using h
  · by_cases hd : dflt = 0
    · subst hd
      simp only [create_scenario, hdup, Bool.false_eq_true, if_false,
        bne_self_eq_false, countDefaults]
      rw [List.countP_append]
      simpa [countDefaults] using h
    · have hb : (dflt != 0) = true := by simpa using hd
      simp only [create_scenario, hdup, Bool.false_eq_true, if_false, hb,
        if_true, countDefaults]
      rw [List.countP_append]
      have h0 : (s.scenarios.map clearDefault).countP
          (fun sc => sc.is_default != 0) = 0 := map_clear_countP s.scenarios
      simp [h0, hb]

theorem countDefaults_update_le (s : Store) (sid : Nat) (nm ds : String)
    (dflt t : Nat) (hn : (s.scenarios.map Scenario.id).Nodup)
    (h : countDefaults s ≤ 1) :
    countDefaults (update_scenario s sid nm ds dflt t).1 ≤ 1 := by
  by_cases herr : (s.scenarios.find? (fun sc => sc.id == sid)).isSome &&
      s.scenarios.any (fun sc => sc.name == nm && sc.id != sid)
  · simpa [update_scenario, herr] using h
  · by_cases hd : dflt = 0
    · subst hd
      have hscen : (update_scenario s sid nm ds 0 t).1.scenarios =
          s.scenarios.map (fun sc =>
            if sc.id == sid then
              { sc with name := nm, description := ds, is_default := 0,
                        updated_at := t }
            else sc) := by
        simp only [update_scenario, herr, if_false, bne_self_eq_false,
          Bool.false_eq_true]
      simp only [countDefaults, hscen, List.countP_map]
      refine le_trans (List.countP_mono_left ?_) h
      intro sc hsc hp
      by_cases hid : sc.id == sid
      · simp [Function.comp, hid] at hp
      · simpa [Function.comp, hid] using hp
    · have hb : (dflt != 0) = true := by simpa using hd
      have hscen : (update_scenario s sid nm ds dflt t).1.scenarios =
          s.scenarios.map (fun sc =>
            if sc.id == sid then
              { sc with name := nm, description := ds, is_default := dflt,
                        updated_at := t }
            else clearDefault sc) := by
        simp only [update_scenario, herr, if_false, hb, if_true,
          Bool.false_eq_true, List.map_map]
        rfl
      simp only [countDefaults, hscen, List.countP_map]
      have hcongr : List.countP ((fun sc => sc.is_default != 0) ∘ fun sc =>
          if sc.id == sid then
            { sc with name := nm, description := ds, is_default := dflt,
                      updated_at := t }
          else clearDefault sc) s.scenarios =
          List.countP (fun sc => sc.id == sid) s.scenarios := by
        apply List.countP_congr
        intro sc hsc
        by_cases hid : sc.id == sid <;>
          simp [Function.comp, clearDefault, hid, hb]
      rw [hcongr]
      have h1 : List.countP (fun sc => sc.id == sid) s.scenarios =
          List.count sid (s.scenarios.map Scenario.id) := by
        rw [List.count_eq_countP, List.countP_map]
        rfl
      rw [h1]
      exact List.nodup_iff_count_le_one.mp hn sid

theorem countDefaults_delete_le (s : Store) (sid t : Nat)
    (h : countDefaults s ≤ 1) :
    countDefaults (delete_scenario s sid t).1 ≤ 1 := by
  rcases hfind : s.scenarios.find? (fun sc => sc.id == sid) with _ | sc
  · simpa [delete_scenario, hfind] using h
  · by_cases hpos : 0 < (s.projects.filter (fun p => p.scenario == sc.name)).length
    · simp only [delete_scenario, hfind]
      rw [if_pos hpos]
      exact h
    · simp only [delete_scenario, hfind]
      rw [if_neg hpos]
      refine le_trans ?_ h
      simp only [countDefaults]
      exact List.Sublist.countP_le _ (List.filter_sublist s.scenarios)

theorem countDefaults_set_shares (s : Store) (sid : Nat)
    (sh : List (String × ℚ)) (t : Nat) :
    countDefaults (set_scenario_shares s sid sh t) = countDefaults s := by
  simp only [countDefaults, set_scenario_shares, List.countP_map]
  apply List.countP_congr
  intro sc _
  by_cases hid : sc.id == sid <;> simp [Function.comp, hid]

theorem countDefaults_log_attendance (s : Store) (pid : Nat)
    (d p : String) (v t : Nat) :
    countDefaults (log_attendance s pid d p v t) = countDefaults s := rfl

theorem countDefaults_create_project (s : Store) (nm dt scn : String)
    (v : ℚ) (pd : Int) (t : Nat) :
    countDefaults (create_project s nm dt scn v pd t).1 = countDefaults s := rfl

theorem countDefaults_update_project (s : Store) (pid : Nat)
    (nm dt scn : String) (v : ℚ) (pd : Int) :
    countDefaults (update_project s pid nm dt scn v pd) = countDefaults s := rfl

theorem countDefaults_delete_project (s : Store) (pid : Nat) :
    countDefaults (delete_project s pid) = countDefaults s := rfl

theorem countDefaults_migrate_le (s : Store) (t : Nat)
    (h : countDefaults s ≤ 1) :
    countDefaults (migrate_hardcoded_scenarios s t) ≤ 1 := by
  unfold migrate_hardcoded_scenarios
  by_cases hlen : s.scenarios.length == 0
  · have hs : s.scenarios = [] := by
      rw [← List.length_eq_zero]
      simpa using hlen
    simp [hlen, SCENARIOS, List.enum, List.enumFrom, countDefaults, hs,
      List.countP_append, List.countP_cons]
  · simpa [hlen] using h

theorem idsok_of_map (s s' : Store) (f : Scenario → Scenario)
    (hs : s'.scenarios = s.scenarios.map f)
    (hn : s'.next_scenario_id = s.next_scenario_id)
    (hf : ∀ sc, (f sc).id = sc.id) (h : ScenarioIdsOk s) :
    ScenarioIdsOk s' := by
  constructor
  · intro sc hsc
    rw [hs] at hsc
    rcases List.mem_map.mp hsc with ⟨b, hb, rfl⟩
    rw [hn, hf b]
    exact h.1 b hb
  · rw [hs, List.map_map]
    have : (Scenario.id ∘ f) = Scenario.id := by
      funext sc
      exact hf sc
    rw [this]
    exact h.2

theorem idsok_create (s : Store) (nm ds : String) (dflt t : Nat)
    (h : ScenarioIdsOk s) : ScenarioIdsOk (create_scenario s nm ds dflt t).1 := by
  by_cases hdup : s.scenarios.any (fun sc => sc.name == nm)
  · simpa [create_scenario, hdup] using h
  · have hscen : (create_scenario s nm ds dflt t).1.scenarios =
        (if (dflt != 0) = true then s.scenarios.map clearDefault
          else s.scenarios) ++ [⟨s.next_scenario_id, nm, ds, dflt, t, t⟩] := by
      simp only [create_scenario, hdup, Bool.false_eq_true, if_false]
    have hnext : (create_scenario s nm ds dflt t).1.next_scenario_id =
        s.next_scenario_id + 1 := by
      simp only [create_scenario, hdup, Bool.false_eq_true, if_false]
    have hids : ((if (dflt != 0) = true then s.scenarios.map clearDefault
        else s.scenarios)).map Scenario.id = s.scenarios.map Scenario.id := by
      split
      · rw [List.map_map]
        rfl
      · rfl
    constructor
    · intro sc hsc
      rw [hscen] at hsc
      rw [hnext]
      rcases List.mem_append.mp hsc with h1 | h1
      · have hmemid : sc.id ∈ s.scenarios.map Scenario.id := by
          rw [← hids]
          exact List.mem_map_of_mem Scenario.id h1
        rcases List.mem_map.mp hmemid with ⟨b, hb, hbe⟩
        rw [← hbe]
        exact Nat.lt_succ_of_lt (h.1 b hb)
      · simp at h1
        rw [h1]
        exact Nat.lt_succ_self _
    · rw [hscen, List.map_append, hids]
      rw [List.nodup_append]
      refine ⟨h.2, by simp, ?_⟩
      intro a ha hb
      simp at hb
      rcases List.mem_map.mp ha with ⟨b, hbmem, rfl⟩
      have := h.1 b hbmem
      omega

theorem idsok_update (s : Store) (sid : Nat) (nm ds : String) (dflt t : Nat)
    (h : ScenarioIdsOk s) :
    ScenarioIdsOk (update_scenario s sid nm ds dflt t).1 := by
  by_cases herr : (s.scenarios.find? (fun sc => sc.id == sid)).isSome &&
      s.scenarios.any (fun sc => sc.name == nm && sc.id != sid)
  · simpa [update_scenario, herr] using h
  · have hscen : (update_scenario s sid nm ds dflt t).1.scenarios =
        ((if (dflt != 0) = true then s.scenarios.map clearDefault
          else s.scenarios)).map (fun sc =>
            if sc.id == sid then
              { sc with name := nm, description := ds, is_default := dflt,
                        updated_at := t }
            else sc) := by
      simp only [update_scenario, herr, Bool.false_eq_true, if_false]
    have hnext : (update_scenario s sid nm ds dflt t).1.next_scenario_id =
        s.next_scenario_id := by
      simp only [update_scenario, herr, Bool.false_eq_true, if_false]
    have hsetter : ∀ sc : Scenario, ((fun sc =>
        if sc.id == sid then
          { sc with name := nm, description := ds, is_default := dflt,
                    updated_at := t }
        else sc) sc).id = sc.id := by
      intro sc
      by_cases hid : sc.id == sid <;> simp [hid]
    split at hscen
    · rw [List.map_map] at hscen
      refine idsok_of_map s _ _ hscen hnext ?_ h
      intro sc
      have h1 := hsetter (clearDefault sc)
      simpa [Function.comp, clearDefault] using h1
    · exact idsok_of_map s _ _ hscen hnext hsetter h

theorem idsok_set_shares (s : Store) (sid : Nat) (sh : List (String × ℚ))
    (t : Nat) : ScenarioIdsOk s →
    ScenarioIdsOk (set_scenario_shares s sid sh t) := by
  intro h
  refine idsok_of_map s _ (fun sc =>
    if sc.id == sid then { sc with updated_at := t } else sc) rfl rfl ?_ h
  intro sc
  by_cases hid : sc.id == sid <;> simp [hid]

theorem import_loop_inv (entries : List ImportEntry) :
    ∀ (s : Store) (cnt t : Nat), ScenarioIdsOk s → countDefaults s ≤ 1 →
      ScenarioIdsOk (import_loop s cnt entries t).1 ∧
      countDefaults (import_loop s cnt entries t).1 ≤ 1 := by
  induction entries with
  | nil =>
    intro s cnt t h1 h2
    exact ⟨h1, h2⟩
  | cons e rest ih =>
    intro s cnt t h1 h2
    cases e with
    | malformed => exact ⟨h1, h2⟩
    | record onm d f sh =>
      cases onm with
      | none =>
        simpa only [import_loop] using ih s cnt t h1 h2
      | some nm =>
        rcases hga : get_scenario_by_name s nm with _ | ex
        · simp only [import_loop, hga]
          by_cases hc : ((create_scenario s nm d (if f then 1 else 0) t).2 ==
              -1) = true
          · rw [if_pos hc]
            exact ih s cnt t h1 h2
          · rw [if_neg hc]
            apply ih
            · exact idsok_set_shares _ _ _ _
                (idsok_create s nm d (if f then 1 else 0) t h1)
            · rw [countDefaults_set_shares]
              exact countDefaults_create_le s nm d (if f then 1 else 0) t h2
        · simp only [import_loop, hga]
          apply ih
          · exact idsok_set_shares _ _ _ _
              (idsok_update s ex.id nm d (if f then 1 else 0) t h1)
          · rw [countDefaults_set_shares]
            exact countDefaults_update_le s ex.id nm d (if f then 1 else 0) t
              h1.2 h2

theorem countDefaults_import_le (s : Store) (entries : List ImportEntry)
    (t : Nat) (h1 : ScenarioIdsOk s) (h2 : countDefaults s ≤ 1) :
    countDefaults (import_scenarios_json s entries t).1 ≤ 1 :=
  (import_loop_inv entries s 0 t h1 h2).2

/-- C3 counterexample: a successful `update_scenario` call with the
default flag set (on an id absent from the store) leaves zero scenarios
with is_default set, not exactly one. -/
theorem default_flag_c3_counterexample :
    (update_scenario c3_store 2 "B" "" 1 5).2 = true ∧
    countDefaults (update_scenario c3_store 2 "B" "" 1 5).1 = 0 := by
  decide

/-- C3 (amended): a successful `create_scenario` with the default flag
leaves exactly one default scenario (the created one); a successful
`update_scenario` with the default flag leaves exactly one default (the
updated one) provided the target id exists in the store; and every store
operation — create/update/delete scenario, set shares, log attendance,
migrate, import, project CRUD — preserves the at-most-one-default
invariant. -/
theorem default_flag_c3_amended :
    (∀ (s : Store) (nm ds : String) (dflt t : Nat), dflt ≠ 0 →
      (create_scenario s nm ds dflt t).2 ≠ -1 →
      ((create_scenario s nm ds dflt t).1.scenarios.filter
        (fun sc => sc.is_default != 0)).map Scenario.id =
        [s.next_scenario_id]) ∧
    (∀ (s : Store) (sid : Nat) (nm ds : String) (dflt t : Nat),
      (s.scenarios.map Scenario.id).Nodup →
      (∃ sc ∈ s.scenarios, sc.id = sid) → dflt ≠ 0 →
      (update_scenario s sid nm ds dflt t).2 = true →
      ((update_scenario s sid nm ds dflt t).1.scenarios.filter
        (fun sc => sc.is_default != 0)).map Scenario.id = [sid]) ∧
    (∀ (s : Store) (nm ds : String) (dflt t : Nat), countDefaults s ≤ 1 →
      countDefaults (create_scenario s nm ds dflt t).1 ≤ 1) ∧
    (∀ (s : Store) (sid : Nat) (nm ds : String) (dflt t : Nat),
      (s.scenarios.map Scenario.id).Nodup → countDefaults s ≤ 1 →
      countDefaults (update_scenario s sid nm ds dflt t).1 ≤ 1) ∧
    (∀ (s : Store) (sid t : Nat), countDefaults s ≤ 1 →
      countDefaults (delete_scenario s sid t).1 ≤ 1) ∧
    (∀ (s : Store) (sid : Nat) (sh : List (String × ℚ)) (t : Nat),
      countDefaults (set_scenario_shares s sid sh t) = countDefaults s) ∧
    (∀ (s : Store) (pid : Nat) (d p : String) (v t : Nat),
      countDefaults (log_attendance s pid d p v t) = countDefaults s) ∧
    (∀ (s : Store) (t : Nat), countDefaults s ≤ 1 →
      countDefaults (migrate_hardcoded_scenarios s t) ≤ 1) ∧
    (∀ (s : Store) (entries : List ImportEntry) (t : Nat), ScenarioIdsOk s →
      countDefaults s ≤ 1 →
      countDefaults (import_scenarios_json s entries t).1 ≤ 1) ∧
    (∀ (s : Store) (nm dt scn : String) (v : ℚ) (pd : Int) (t : Nat),
      countDefaults (create_project s nm dt scn v pd t).1 = countDefaults s) ∧
    (∀ (s : Store) (pid : Nat) (nm dt scn : String) (v : ℚ) (pd : Int),
      countDefaults (update_project s pid nm dt scn v pd) = countDefaults s) ∧
    (∀ (s : Store) (pid : Nat),
      countDefaults (delete_project s pid) = countDefaults s) :=
  ⟨fun s nm ds dflt t hd hs => create_defaults s nm ds dflt t hd hs,
   fun s sid nm ds dflt t hn hmem hd hs =>
     update_defaults s sid nm ds dflt t hn hmem hd hs,
   fun s nm ds dflt t h => countDefaults_create_le s nm ds dflt t h,
   fun s sid nm ds dflt t hn h => countDefaults_update_le s sid nm ds dflt t hn h,
   fun s sid t h => countDefaults_delete_le s sid t h,
   fun s sid sh t => countDefaults_set_shares s sid sh t,
   fun s pid d p v t => countDefaults_log_attendance s pid d p v t,
   fun s t h => countDefaults_migrate_le s t h,
   fun s entries t h1 h2 => countDefaults_import_le s entries t h1 h2,
   fun s nm dt scn v pd t => countDefaults_create_project s nm dt scn v pd t,
   fun s pid nm dt scn v pd => countDefaults_update_project s pid nm dt scn v pd,
   fun s pid => countDefaults_delete_project s pid⟩

/-- Witness for C3 (amended) on concrete stores: creating a default
scenario over an existing default, updating scenario 2 to default next to
default scenario 1, and deleting under the invariant. -/
theorem default_flag_c3_witness :
    ((create_scenario c3_store "C" "" 1 9).1.scenarios.filter
      (fun sc => sc.is_default != 0)).map Scenario.id = [2] ∧
    ((update_scenario c3_two_store 2 "B" "" 1 5).1.scenarios.filter
      (fun sc => sc.is_default != 0)).map Scenario.id = [2] ∧
    countDefaults (delete_scenario c3_two_store 1 4).1 ≤ 1 := by
  refine ⟨?_, ?_, ?_⟩
  · exact default_flag_c3_amended.1 c3_store "C" "" 1 9 (by decide) (by decide)
  · exact default_flag_c3_amended.2.1 c3_two_store 2 "B" "" 1 5 (by decide)
      ⟨⟨2, "B", "", 0, 0, 0⟩, by decide, rfl⟩ (by decide) (by decide)
  · exact default_flag_c3_amended.2.2.2.2.1 c3_two_store 1 4 (by decide)

theorem create_id_of_no_name (s : Store) (nm d : String) (x t : Nat)
    (h : get_scenario_by_name s nm = none) :
    (create_scenario s nm d x t).2 = (s.next_scenario_id : Int) := by
  have hany : s.scenarios.any (fun sc => sc.name == nm) = false := by
    rw [List.any_eq_false]
    intro sc hsc
    have := List.find?_eq_none.mp h sc hsc
    simpa using this
  simp [create_scenario, hany]

theorem natCast_beq_neg_one (n : Nat) : (((n : Int)) == -1) = false := by
  simp only [beq_eq_false_iff_ne, ne_eq]
  omega

theorem import_loop_success_iff (entries : List ImportEntry) :
    ∀ (s : Store) (cnt t : Nat),
      (import_loop s cnt entries t).2.1 = true ↔
        ∀ e ∈ entries, e ≠ ImportEntry.malformed := by
  induction entries with
  | nil => intro s cnt t; simp [import_loop]
  | cons e rest ih =>
    intro s cnt t
    cases e with
    | malformed => simp [import_loop]
    | record onm d f sh =>
      cases onm with
      | none => simp only [import_loop]; rw [ih]; simp
      | some nm =>
        rcases hga : get_scenario_by_name s nm with _ | ex
        · simp only [import_loop, hga]
          rw [create_id_of_no_name s nm d (if f then 1 else 0) t hga,
            natCast_beq_neg_one]
          simp only [Bool.false_eq_true, if_false]
          rw [ih]
          simp
        · simp only [import_loop, hga]
          rw [ih]
          simp

theorem import_loop_count (entries : List ImportEntry) :
    ∀ (s : Store) (cnt t : Nat), (∀ e ∈ entries, e ≠ ImportEntry.malformed) →
      (import_loop s cnt entries t).2.2 =
        cnt + entries.countP named_record := by
  induction entries with
  | nil => intro s cnt t _; simp [import_loop]
  | cons e rest ih =>
    intro s cnt t h
    cases e with
    | malformed => exact absurd rfl (h ImportEntry.malformed (by simp))
    | record onm d f sh =>
      have hrest : ∀ e ∈ rest, e ≠ ImportEntry.malformed := by
        intro e he
        exact h e (List.mem_cons_of_mem _ he)
      cases onm with
      | none =>
        simp only [import_loop]
        rw [ih _ _ _ hrest]
        simp [named_record, List.countP_cons]
      | some nm =>
        rcases hga : get_scenario_by_name s nm with _ | ex
        · simp only [import_loop, hga]
          rw [create_id_of_no_name s nm d (if f then 1 else 0) t hga,
            natCast_beq_neg_one]
          simp only [Bool.false_eq_true, if_false]
          rw [ih _ _ _ hrest]
          simp [named_record, List.countP_cons]
          omega
        · simp only [import_loop, hga]
          rw [ih _ _ _ hrest]
          simp [named_record, List.countP_cons]
          omega

theorem import_loop_abort (pre : List ImportEntry) :
    ∀ (s : Store) (cnt : Nat) (post : List ImportEntry) (t : Nat),
      (∀ e ∈ pre, e ≠ ImportEntry.malformed) →
      import_loop s cnt (pre ++ ImportEntry.malformed :: post) t =
        ((import_loop s cnt pre t).1, false, 0) := by
  induction pre with
  | nil => intro s cnt post t _; simp [import_loop]
  | cons e pre ih =>
    intro s cnt post t h
    have hpre : ∀ x ∈ pre, x ≠ ImportEntry.malformed := by
      intro x hx
      exact h x (List.mem_cons_of_mem _ hx)
    cases e with
    | malformed => exact absurd rfl (h ImportEntry.malformed (by simp))
    | record onm d f sh =>
      cases onm with
      | none =>
        simp only [List.cons_append, import_loop]
        exact ih s cnt post t hpre
      | some nm =>
        rcases hga : get_scenario_by_name s nm with _ | ex
        · simp only [List.cons_append, import_loop, hga]
          rw [create_id_of_no_name s nm d (if f then 1 else 0) t hga,
            natCast_beq_neg_one]
          simp only [Bool.false_eq_true, if_false]
          exact ih _ _ post t hpre
        · simp only [List.cons_append, import_loop, hga]
          exact ih _ _ post t hpre

/-- C8 counterexample: on `c8_doc` (one malformed entry between two
well-formed records) the import aborts — it returns failure and the
second well-formed record is never imported, contradicting
continue-on-error for arbitrary malformed entries. -/
theorem import_malformed_c8_counterexample :
    (import_scenarios_json empty_store c8_doc 0).2.1 = false ∧
    (import_scenarios_json empty_store c8_doc 0).1.scenarios.map
      Scenario.name = ["A"] := by
  decide

/-- C8 (amended): a record malformed by a missing/null name is skipped
and the batch continues without counting it; an entry that is not an
object aborts the batch at that point with a failure result while keeping
the entries already imported; the import succeeds exactly when no
non-object entry occurs, and then reports the count of named records. -/
theorem import_malformed_c8_amended :
    (∀ (s : Store) (cnt : Nat) (d : String) (f : Bool)
      (sh : List (String × ℚ)) (rest : List ImportEntry) (t : Nat),
      import_loop s cnt (ImportEntry.record none d f sh :: rest) t =
        import_loop s cnt rest t) ∧
    (∀ (s : Store) (cnt : Nat) (rest : List ImportEntry) (t : Nat),
      import_loop s cnt (ImportEntry.malformed :: rest) t = (s, false, 0)) ∧
    (∀ (pre : List ImportEntry) (s : Store) (cnt : Nat)
      (post : List ImportEntry) (t : Nat),
      (∀ e ∈ pre, e ≠ ImportEntry.malformed) →
      import_loop s cnt (pre ++ ImportEntry.malformed :: post) t =
        ((import_loop s cnt pre t).1, false, 0)) ∧
    (∀ (s : Store) (entries : List ImportEntry) (t : Nat),
      (import_scenarios_json s entries t).2.1 = true ↔
        ∀ e ∈ entries, e ≠ ImportEntry.malformed) ∧
    (∀ (s : Store) (entries : List ImportEntry) (t : Nat),
      (∀ e ∈ entries, e ≠ ImportEntry.malformed) →
      (import_scenarios_json s entries t).2.2 =
        entries.countP named_record) :=
  ⟨fun _ _ _ _ _ _ _ => rfl,
   fun _ _ _ _ => rfl,
   fun pre s cnt post t h => import_loop_abort pre s cnt post t h,
   fun s entries t => import_loop_success_iff entries s 0 t,
   fun s entries t h => (import_loop_count entries s 0 t h).trans
     (Nat.zero_add _)⟩

/-- Witness for C8 (amended) on concrete documents: the abort shape on
`c8_doc`, and the success count 2 on the two well-formed records. -/
theorem import_malformed_c8_witness :
    import_loop empty_store 0 c8_doc 0 =
      ((import_loop empty_store 0
        [ImportEntry.record (some "A") "" false [("W1", 100)]] 0).1,
       false, 0) ∧
    (import_scenarios_json empty_store
      [ImportEntry.record (some "A") "" false [("W1", 100)],
       ImportEntry.record (some "B") "" false [("W1", 100)]] 0).2.2 = 2 := by
  constructor
  · exact import_malformed_c8_amended.2.2.1
      [ImportEntry.record (some "A") "" false [("W1", 100)]] empty_store 0
      [ImportEntry.record (some "B") "" false [("W1", 100)]] 0 (by decide)
  · have h := import_malformed_c8_amended.2.2.2.2 empty_store
      [ImportEntry.record (some "A") "" false [("W1", 100)],
       ImportEntry.record (some "B") "" false [("W1", 100)]] 0 (by decide)
    rw [h]
    decide

theorem sh_rows_roundtrip (sh : List (String × ℚ)) (n : Nat) :
    ((sh.map (fun p => (⟨n, p.1, p.2⟩ : ScenarioShare))).filter
      (fun r => r.scenario_id == n)).map
      (fun r => (r.user_name, r.share_percentage)) = sh := by
  rw [List.filter_map]
  have h1 : ((fun (r : ScenarioShare) => r.scenario_id == n) ∘
      fun (p : String × ℚ) => (⟨n, p.1, p.2⟩ : ScenarioShare)) =
      fun _ => true := by
    funext p
    simp
  rw [h1, List.filter_true, List.map_map]
  exact List.map_id sh

theorem import_fresh (recs : List ExportRec) :
    ∀ (acc : Store) (cnt t : Nat),
      (∀ r ∈ recs, ∀ sc ∈ acc.scenarios, sc.name ≠ r.name) →
      (recs.map ExportRec.name).Nodup →
      (∀ sc ∈ acc.scenarios, sc.id < acc.next_scenario_id) →
      (∀ sh ∈ acc.scenario_shares, sh.scenario_id < acc.next_scenario_id) →
      recs.countP ExportRec.is_default + countDefaults acc ≤ 1 →
      store_profiles (import_loop acc cnt (recs.map toImportEntry) t).1 =
        store_profiles acc ++ recs.map recProfile := by
  induction recs with
  | nil =>
    intro acc cnt t _ _ _ _ _
    simp [import_loop]
  | cons r0 rest ih =>
    intro acc cnt t hfresh hnodup hidb hshb hcd
    obtain ⟨nm, ds, df, sh⟩ := r0
    have hmemhead : (⟨nm, ds, df, sh⟩ : ExportRec) ∈
        (⟨nm, ds, df, sh⟩ : ExportRec) :: rest := List.mem_cons_self _ _
    have hname_none : get_scenario_by_name acc nm = none := by
      unfold get_scenario_by_name
      rw [List.find?_eq_none]
      intro sc hsc
      simpa using hfresh ⟨nm, ds, df, sh⟩ hmemhead sc hsc
    have hany : acc.scenarios.any (fun sc => sc.name == nm) = false := by
      rw [List.any_eq_false]
      intro sc hsc
      simpa using hfresh ⟨nm, ds, df, sh⟩ hmemhead sc hsc
    have hbase : (if ((if df then 1 else 0 : Nat) != 0) = true then
        acc.scenarios.map clearDefault else acc.scenarios) = acc.scenarios := by
      cases df
      · simp
      · have hone : 1 ≤ ((⟨nm, ds, true, sh⟩ : ExportRec) :: rest).countP
            ExportRec.is_default := by
          simp [List.countP_cons, ExportRec.is_default]
        have hcd0 : countDefaults acc = 0 := by omega
        have hflags : ∀ sc ∈ acc.scenarios, sc.is_default = 0 := by
          intro sc hsc
          have h0 : acc.scenarios.countP (fun sc => sc.is_default != 0) = 0 :=
            hcd0
          simpa using List.countP_eq_zero.mp h0 sc hsc
        simp [map_clear_eq_self acc.scenarios hflags]
    have hcreate : create_scenario acc nm ds (if df then 1 else 0) t =
        ({ acc with
            scenarios := acc.scenarios ++
              [⟨acc.next_scenario_id, nm, ds, (if df then 1 else 0), t, t⟩],
            next_scenario_id := acc.next_scenario_id + 1,
            audit_log := log_audit acc.audit_log "scenario"
              (some acc.next_scenario_id) "created" none
              (some (Snap.nameDesc nm ds)) t },
         (acc.next_scenario_id : Int)) := by
      simp only [create_scenario, hany, Bool.false_eq_true, if_false]
      rw [hbase]
    have hstep : import_loop acc cnt
        (((⟨nm, ds, df, sh⟩ : ExportRec) :: rest).map toImportEntry) t =
        import_loop (set_scenario_shares
          (create_scenario acc nm ds (if df then 1 else 0) t).1
          acc.next_scenario_id sh t) (cnt + 1) (rest.map toImportEntry) t := by
      have h2 : ((create_scenario acc nm ds (if df then 1 else 0) t).2 ==
          -1) = false := by
        rw [hcreate]
        exact natCast_beq_neg_one _
      have h3 : (create_scenario acc nm ds (if df then 1 else 0) t).2.toNat =
          acc.next_scenario_id := by
        rw [hcreate]
        rfl
      simp only [List.map_cons, toImportEntry, import_loop, hname_none, h2,
        Bool.false_eq_true, if_false, h3]
    set s2 := set_scenario_shares
      (create_scenario acc nm ds (if df then 1 else 0) t).1
      acc.next_scenario_id sh t with hs2
    have hs2shares : s2.scenario_shares = acc.scenario_shares ++
        sh.map (fun p => ⟨acc.next_scenario_id, p.1, p.2⟩) := by
      rw [hs2, hcreate]
      simp only [set_scenario_shares]
      congr 1
      rw [List.filter_eq_self]
      intro r hr
      have hlt := hshb r hr
      simp only [Bool.not_eq_true']
      simp only [beq_eq_false_iff_ne, ne_eq]
      omega
    have hs2scen : s2.scenarios = acc.scenarios ++
        [⟨acc.next_scenario_id, nm, ds, (if df then 1 else 0), t, t⟩] := by
      rw [hs2, hcreate]
      simp only [set_scenario_shares]
      rw [List.map_append]
      congr 1
      · rw [List.map_congr_left (fun sc hsc => ?_)]
        · exact List.map_id acc.scenarios
        · have hlt := hidb sc hsc
          have hne : (sc.id == acc.next_scenario_id) = false := by
            simp only [beq_eq_false_iff_ne, ne_eq]
            omega
          simp [hne]
      · simp
    have hs2next : s2.next_scenario_id = acc.next_scenario_id + 1 := by
      rw [hs2, hcreate]
      rfl
    have hprof : store_profiles s2 = store_profiles acc ++
        [(nm, ds, df, sh)] := by
      unfold store_profiles
      rw [hs2scen, List.map_append]
      congr 1
      · apply List.map_congr_left
        intro sc hsc
        unfold scenario_profile
        have hsame : get_scenario_shares s2 sc.id =
            get_scenario_shares acc sc.id := by
          unfold get_scenario_shares
          rw [hs2shares, List.filter_append]
          have hnil : (sh.map (fun p =>
              (⟨acc.next_scenario_id, p.1, p.2⟩ : ScenarioShare))).filter
              (fun r => r.scenario_id == sc.id) = [] := by
            rw [List.filter_eq_nil_iff]
            intro a ha
            rcases List.mem_map.mp ha with ⟨p, _, rfl⟩
            have hlt := hidb sc hsc
            simp only [beq_iff_eq]
            omega
          rw [hnil, List.append_nil]
        rw [hsame]
      · have hflag : (((if df then 1 else 0 : Nat)) != 0) = df := by
          cases df <;> rfl
        have hshares : get_scenario_shares s2 acc.next_scenario_id = sh := by
          unfold get_scenario_shares
          rw [hs2shares, List.filter_append]
          have hnil2 : acc.scenario_shares.filter
              (fun r => r.scenario_id == acc.next_scenario_id) = [] := by
            rw [List.filter_eq_nil_iff]
            intro a ha
            have hlt := hshb a ha
            simp only [beq_iff_eq]
            omega
          rw [hnil2, List.nil_append]
          exact sh_rows_roundtrip sh acc.next_scenario_id
        simp [scenario_profile, hflag, hshares]
    rw [hstep]
    rw [ih s2 (cnt + 1) t ?f1 ?f2 ?f3 ?f4 ?f5]
    case f1 =>
      intro r hr sc hsc
      rw [hs2scen] at hsc
      rcases List.mem_append.mp hsc with h1 | h1
      · exact hfresh r (List.mem_cons_of_mem _ hr) sc h1
      · simp at h1
        rw [h1]
        have hnm : nm ∉ rest.map ExportRec.name := by
          have := hnodup
          simp only [List.map_cons, List.nodup_cons] at this
          exact this.1
        show nm ≠ r.name
        intro heq
        apply hnm
        rw [heq]
        exact List.mem_map_of_mem ExportRec.name hr
    case f2 =>
      have := hnodup
      simp only [List.map_cons, List.nodup_cons] at this
      exact this.2
    case f3 =>
      intro sc hsc
      rw [hs2scen] at hsc
      rw [hs2next]
      rcases List.mem_append.mp hsc with h1 | h1
      · exact Nat.lt_succ_of_lt (hidb sc h1)
      · simp at h1
        rw [h1]
        exact Nat.lt_succ_self _
    case f4 =>
      intro r hr
      rw [hs2shares] at hr
      rw [hs2next]
      rcases List.mem_append.mp hr with h1 | h1
      · exact Nat.lt_succ_of_lt (hshb r h1)
      · rcases List.mem_map.mp h1 with ⟨p, _, rfl⟩
        exact Nat.lt_succ_self _
    case f5 =>
      have hc2 : countDefaults s2 = countDefaults acc +
          (if df then 1 else 0) := by
        unfold countDefaults
        rw [hs2scen, List.countP_append]
        cases df <;> simp
      have hh : ((⟨nm, ds, df, sh⟩ : ExportRec) :: rest).countP
          ExportRec.is_default =
          (if df then 1 else 0) + rest.countP ExportRec.is_default := by
        cases df
        all_goals simp [List.countP_cons, ExportRec.is_default]
        omega
      rw [hh] at hcd
      rw [hc2]
      omega
    rw [hprof]
    simp [recProfile]

/-- C7: for every store whose scenario names are unique (the table's
UNIQUE constraint) and whose scenarios satisfy the at-most-one-default
invariant, exporting all scenarios and importing the document into an
empty store reproduces, up to order, the same scenario names,
descriptions, default flags and per-scenario share maps. -/
theorem export_import_roundtrip_c7 (s : Store) (t : Nat)
    (hn : (s.scenarios.map Scenario.name).Nodup)
    (hd : countDefaults s ≤ 1) :
    (store_profiles (import_scenarios_json empty_store
      ((export_scenarios_json s).map toImportEntry) t).1).Perm
      (store_profiles s) := by
  have hperm : (get_all_scenarios s).Perm s.scenarios :=
    List.mergeSort_perm s.scenarios _
  have hrecs : export_scenarios_json s = (get_all_scenarios s).map
      (fun sc => (⟨sc.name, sc.description, sc.is_default != 0,
        get_scenario_shares s sc.id⟩ : ExportRec)) := rfl
  have h1 : ∀ r ∈ export_scenarios_json s,
      ∀ sc ∈ empty_store.scenarios, sc.name ≠ r.name := by
    intro r _ sc hsc
    cases hsc
  have h2 : ((export_scenarios_json s).map ExportRec.name).Nodup := by
    rw [hrecs, List.map_map]
    have hc : (ExportRec.name ∘ fun (sc : Scenario) => (⟨sc.name, sc.description,
        sc.is_default != 0, get_scenario_shares s sc.id⟩ : ExportRec)) =
        Scenario.name := rfl
    rw [hc]
    exact ((hperm.map Scenario.name).nodup_iff).mpr hn
  have h3 : ∀ sc ∈ empty_store.scenarios,
      sc.id < empty_store.next_scenario_id := by
    intro sc hsc
    cases hsc
  have h4 : ∀ sh ∈ empty_store.scenario_shares,
      sh.scenario_id < empty_store.next_scenario_id := by
    intro sh hsh
    cases hsh
  have h5 : (export_scenarios_json s).countP ExportRec.is_default +
      countDefaults empty_store ≤ 1 := by
    have hc : (export_scenarios_json s).countP ExportRec.is_default =
        countDefaults s := by
      rw [hrecs, List.countP_map]
      have he : (ExportRec.is_default ∘ fun (sc : Scenario) => (⟨sc.name, sc.description,
          sc.is_default != 0, get_scenario_shares s sc.id⟩ : ExportRec)) =
          (fun sc => sc.is_default != 0) := rfl
      rw [he]
      exact hperm.countP_eq _
    rw [hc]
    simpa [empty_store, countDefaults] using hd
  have hmain := import_fresh (export_scenarios_json s) empty_store 0 t h1 h2
    h3 h4 h5
  have hzero : store_profiles empty_store = [] := rfl
  rw [import_scenarios_json, hmain, hzero, List.nil_append]
  have hmap : (export_scenarios_json s).map recProfile =
      (get_all_scenarios s).map (scenario_profile s) := by
    rw [hrecs, List.map_map]
    rfl
  rw [hmap]
  exact hperm.map (scenario_profile s)

/-- Witness for C7 on `c7_store` (two scenarios, one default, three
share rows). -/
theorem export_import_roundtrip_c7_witness :
    (store_profiles (import_scenarios_json empty_store
      ((export_scenarios_json c7_store).map toImportEntry) 5).1).Perm
      (store_profiles c7_store) :=
  export_import_roundtrip_c7 c7_store 5 (by decide) (by decide)
